import Mathlib

/-!
Shallow embedding of the MQTT performance-measurement core of the
`cryptography-stats` repository, and proofs about it.

Embedded source files:
  * `src/certificates-manager/src/utils/mqtt/test_runner.py`
      - class `MqttTestState` (state record, `record_*` mutators,
        `get_results_dict` finalization)
      - callbacks `on_connect`, `on_disconnect`, `on_publish`
      - `run_mqtt_test` (single-trial driver)
      - `calculate_statistics` (numpy-based statistics reduction)
  * `src/certificates-manager/src/utils/certificate_manager_gui.py`
      - `_run_performance_test_thread` (batch orchestration loop with
        cooperative cancellation and end-of-batch export)

Modelling conventions:
  * `time.perf_counter()` timestamps are rationals (`ℚ`); the code uses the
    sentinel `0` for "unset" and tests `> 0`, which we mirror literally.
  * `threading.Event` is a `Bool` flag (`set()` is assignment to `true`;
    `wait(timeout)` returns whether the flag was set within the window, which
    the trial-environment record supplies).
  * The asynchronous callbacks are state-transformer functions; a trial run is
    the sequential composition of the driver's phases with the callbacks
    applied at the points where the corresponding network events are delivered
    inside the respective wait window, as described by a `TrialEnv` record.
  * numpy float statistics are computed over `ℚ`; since the reported standard
    deviation `np.std(data)` is the square root of the population variance and
    square roots leave `ℚ`, the embedding carries the population variance
    (field `StdDevSq`, with `np.std(data) = Real.sqrt StdDevSq`): equality /
    nullity of the variance is equivalent to equality / nullity of the
    standard deviation.
-/

/-- Result record produced by `MqttTestState.get_results_dict`
(the Python dictionary with keys iteration/handshake/puback/total/error). -/
structure TrialResult where
  iteration : Nat
  handshake : Option ℚ
  puback : Option ℚ
  total : Option ℚ
  error : Option String
deriving DecidableEq, Repr

/-- State of one MQTT test run (`class MqttTestState`). Timestamp fields are
initialised to the sentinel `0`; `connect_event` / `publish_event` model the
two `threading.Event` gates; `message_id` is the in-flight publish mid. -/
structure MqttTestState where
  iteration : Nat
  config_name : String
  connect_sent_time : ℚ := 0
  connect_ack_time : ℚ := 0
  publish_sent_time : ℚ := 0
  publish_ack_time : ℚ := 0
  error : Option String := none
  connect_event : Bool := false
  publish_event : Bool := false
  message_id : Option Nat := none
deriving DecidableEq, Repr

namespace MqttTestState

/-- `MqttTestState.__init__`. -/
def init (iteration : Nat) (config_name : String) : MqttTestState :=
  { iteration := iteration, config_name := config_name }

/-- `record_connect_sent` (the `perf_counter` reading is the argument `t`). -/
def record_connect_sent (s : MqttTestState) (t : ℚ) : MqttTestState :=
  { s with connect_sent_time := t }

/-- `record_connect_ack`: records the timestamp and signals the connect gate. -/
def record_connect_ack (s : MqttTestState) (t : ℚ) : MqttTestState :=
  { s with connect_ack_time := t, connect_event := true }

/-- `record_publish_sent`. -/
def record_publish_sent (s : MqttTestState) (t : ℚ) : MqttTestState :=
  { s with publish_sent_time := t }

/-- `record_publish_ack`: records the timestamp and signals the publish gate. -/
def record_publish_ack (s : MqttTestState) (t : ℚ) : MqttTestState :=
  { s with publish_ack_time := t, publish_event := true }

/-- `record_error`: stores the message into `error` (an unconditional
assignment in the source) and sets both events; the source guards each
`set()` with `is_set()`, which for a boolean flag is the same as assigning
`true` unconditionally. -/
def record_error (s : MqttTestState) (err_msg : String) : MqttTestState :=
  { s with error := some err_msg, connect_event := true, publish_event := true }

/-- `get_results_dict`: derives the result record from a finalized state.
The nested conditionals, the `self.error if self.error else default`
expressions (`Option.getD`), and the two trailing defensive fix-ups mirror
the source line by line. -/
def get_results_dict (s : MqttTestState) : TrialResult :=
  if s.error.isSome then
    { iteration := s.iteration, handshake := none, puback := none,
      total := none, error := s.error }
  else
    let quad : Option ℚ × Option ℚ × Option ℚ × Option String :=
      if 0 < s.connect_sent_time ∧ 0 < s.connect_ack_time then
        let handshake_time := s.connect_ack_time - s.connect_sent_time
        if 0 < s.publish_sent_time ∧ 0 < s.publish_ack_time then
          (some handshake_time, some (s.publish_ack_time - s.publish_sent_time),
            some (s.publish_ack_time - s.connect_sent_time), none)
        else if 0 < s.publish_sent_time then
          (some handshake_time, none, none,
            some (s.error.getD "PUBACK Incomplete/Timeout"))
        else
          (some handshake_time, none, none,
            some (s.error.getD "Publish Phase Not Reached"))
      else if 0 < s.connect_sent_time then
        (none, none, none, some (s.error.getD "Connect Incomplete/Timeout"))
      else
        (none, none, none, some (s.error.getD "Run Not Started"))
    let handshake_time := quad.1
    let puback_time := quad.2.1
    let total_time := quad.2.2.1
    let final_error := quad.2.2.2
    let final_error :=
      if handshake_time = none ∧ final_error = none then
        some "Incomplete run (missing connect timestamps)"
      else if puback_time = none ∧ total_time = none ∧ final_error = none ∧
          0 < s.publish_sent_time then
        some "Incomplete run (missing puback timestamp)"
      else final_error
    { iteration := s.iteration, handshake := handshake_time,
      puback := puback_time, total := total_time, error := final_error }

end MqttTestState

/-- `on_connect` callback (CONNACK received), with the delivery time `t` of
the acknowledgement. On `reason_code = 0` it records the connect-ack
timestamp (which signals the connect gate); otherwise it stores
`Connect RC: {code}` into `error` directly and signals only the connect gate
(the printing and TLS-introspection lines have no state effect). -/
def on_connect (reason_code : Nat) (t : ℚ) (state : MqttTestState) :
    MqttTestState :=
  if reason_code = 0 then
    state.record_connect_ack t
  else
    { state with error := some ("Connect RC: " ++ toString reason_code),
                 connect_event := true }

/-- `on_disconnect` callback, with `current_time` the `perf_counter` reading
taken inside the callback. A non-zero reason code on an error-free state is
an unexpected disconnect unless one of the two grace conditions holds:
within 1 second after a recorded publish-ack, or within 1 second after the
connect-ack when the publish was never issued. -/
def on_disconnect (reason_code : Nat) (current_time : ℚ)
    (state : MqttTestState) : MqttTestState :=
  if reason_code ≠ 0 ∧ state.error = none then
    let disconnect_error : Bool :=
      if 0 < state.publish_ack_time ∧
          current_time - state.publish_ack_time < 1 then false
      else if 0 < state.connect_ack_time ∧ state.publish_sent_time = 0 ∧
          current_time - state.connect_ack_time < 1 then false
      else true
    if disconnect_error then
      state.record_error ("Unexpected disconnect: " ++ toString reason_code)
    else state
  else state

/-- `on_publish` callback (PUBACK received for mid `mid` at time `t`):
records the publish-ack only when the mid matches the in-flight
`message_id`; any other mid is ignored. -/
def on_publish (mid : Nat) (t : ℚ) (state : MqttTestState) : MqttTestState :=
  if state.message_id = some mid then state.record_publish_ack t
  else state

/-- Description of the external world seen by one `run_mqtt_test` call: the
outcomes of the synchronous client calls and the callback events the paho
I/O thread delivers inside each wait window. Timestamps are the
`perf_counter` readings at the corresponding `record_*` call sites. -/
structure TrialEnv where
  /-- `client_config.get("tls", False)` -/
  tls : Bool := false
  /-- exception message raised by `client.tls_set`, when it fails -/
  tlsError : Option String := none
  /-- `client.connect` raises a synchronous exception -/
  connectThrows : Bool := false
  /-- reason code of the CONNACK delivered within the 15 s connect wait
  window (`none`: no CONNACK arrives in the window) -/
  connAckRc : Option Nat := none
  connectSentTime : ℚ := 0
  connAckTime : ℚ := 0
  publishSentTime : ℚ := 0
  /-- `msg_info.rc` returned by `client.publish` (0 = `MQTT_ERR_SUCCESS`) -/
  publishRc : Nat := 0
  /-- `msg_info.mid` returned by `client.publish` -/
  publishMid : Nat := 0
  /-- mids of the PUBACKs delivered within the 15 s publish wait window,
  in delivery order -/
  pubAckMids : List Nat := []
  pubAckTime : ℚ := 0

/-- Publish phase of `run_mqtt_test` (the body of
`if connected and not state.error:`): record `publish_sent`, issue the
publish (a non-success `msg_info.rc` raises, caught by the surrounding
`except` which records `Publish Error: ...` only when no error is set),
store the returned mid, deliver the window's PUBACK callbacks, and on a
wait timeout with no recorded error and no recorded ack record
`PUBACK timeout`. -/
def publishPhase (env : TrialEnv) (s : MqttTestState) : MqttTestState :=
  let s := s.record_publish_sent env.publishSentTime
  if env.publishRc ≠ 0 then
    if s.error = none then
      s.record_error ("Publish Error: Publish failed with rc: " ++
        toString env.publishRc)
    else s
  else
    let s := { s with message_id := some env.publishMid }
    let s := env.pubAckMids.foldl (fun t mid => on_publish mid env.pubAckTime t) s
    let puback_received := s.publish_event
    if puback_received = false ∧ s.error = none ∧ s.publish_ack_time = 0 then
      s.record_error "PUBACK timeout"
    else s

/-- `run_mqtt_test`: TLS setup (early error return), connect issue (early
error return), CONNACK wait (the callback fires iff the environment
delivers one; `connected` is the gate value after the window; an expired
wait with no error records `Connect timeout`), then the publish phase when
connected and error-free. The disconnect phase and `loop_stop` do not
mutate the trial state (unsolicited disconnect notifications are modelled
separately by `on_disconnect`). -/
def run_mqtt_test (iteration : Nat) (config_name : String) (env : TrialEnv) :
    MqttTestState :=
  let state := MqttTestState.init iteration config_name
  if env.tls ∧ env.tlsError.isSome then
    state.record_error ("TLS Setup Error: " ++ env.tlsError.getD "")
  else
    let state := state.record_connect_sent env.connectSentTime
    if env.connectThrows then
      state.record_error "Connect Error"
    else
      let state :=
        match env.connAckRc with
        | some rc => on_connect rc env.connAckTime state
        | none => state
      let connected := state.connect_event
      let state :=
        if connected = false ∧ state.error = none then
          state.record_error "Connect timeout"
        else state
      if connected = true ∧ state.error = none then publishPhase env state
      else state

/-! ### Batch orchestration
(`_run_performance_test_thread` in `certificate_manager_gui.py`.)

The worker thread reads the shared `self.test_cancelled` flag at a sequence
of well-defined checkpoints: before each configuration, before each
iteration, and once more before the final export. We model the flag as a
function from the checkpoint index (the number of reads performed so far)
to its value at that read. A trial's outcome
(`run_mqtt_test(...).get_results_dict()`) is supplied by an oracle
`trial : String → Nat → TrialResult` (configuration name, iteration),
since it depends on the external broker. -/

/-- Outcome of the batch thread. `export_results_to_excel` is invoked only
on the `completed` branch, with the accumulated `all_run_data`; on every
cancelled return the thread exits without flushing anything to the sink. -/
inductive BatchOutcome where
  | completed : List (String × List TrialResult) → BatchOutcome
  | cancelled : BatchOutcome
deriving DecidableEq, Repr

/-- The data handed to the result sink (`export_results_to_excel`), when
any: `none` on a cancelled run. -/
def BatchOutcome.flushed : BatchOutcome → Option (List (String × List TrialResult))
  | .completed data => some data
  | .cancelled => none

/-- Inner loop `for i in range(1, iterations + 1)` of the batch thread for
one configuration: check the cancellation flag (returning `none` aborts the
whole batch), run the trial, append its result. Arguments: remaining
iteration count, current 1-based iteration `i`, next checkpoint index
`chk`, accumulated results. Returns the results together with the
checkpoint index after the loop. (The `time.sleep` between iterations has
no state effect.) -/
def runIterations (trial : String → Nat → TrialResult)
    (cancelled : Nat → Bool) (config_name : String) :
    Nat → Nat → Nat → List TrialResult → Option (List TrialResult × Nat)
  | 0, _, chk, acc => some (acc, chk)
  | remaining + 1, i, chk, acc =>
    if cancelled chk then none
    else
      runIterations trial cancelled config_name remaining (i + 1) (chk + 1)
        (acc ++ [trial config_name i])

/-- Outer loop over `test_configs.items()`: check the cancellation flag
before each configuration, run its iterations, accumulate
`all_run_data[config_name] = iteration_results`; after the last
configuration the flag is read once more (`if not self.test_cancelled`)
before exporting. -/
def runConfigs (trial : String → Nat → TrialResult) (cancelled : Nat → Bool)
    (iterations : Nat) :
    List String → Nat → List (String × List TrialResult) → BatchOutcome
  | [], chk, acc => if cancelled chk then .cancelled else .completed acc
  | config_name :: rest, chk, acc =>
    if cancelled chk then .cancelled
    else
      match runIterations trial cancelled config_name iterations 1 (chk + 1) [] with
      | none => .cancelled
      | some (results, chk') =>
        runConfigs trial cancelled iterations rest chk' (acc ++ [(config_name, results)])

/-- `_run_performance_test_thread`, given the configuration names in
iteration order, the per-trial outcome oracle and the cancellation-flag
history. -/
def runBatch (trial : String → Nat → TrialResult) (cancelled : Nat → Bool)
    (iterations : Nat) (config_names : List String) : BatchOutcome :=
  runConfigs trial cancelled iterations config_names 0 []

/-! ### Statistics reduction (`calculate_statistics`). -/

/-- Summary record returned by `calculate_statistics`. `StdDevSq` is the
population variance; the source reports `np.std(data)`, its square root
(see the file header). -/
structure SummaryStats where
  Mean : Option ℚ
  Median : Option ℚ
  StdDevSq : Option ℚ
  Min : Option ℚ
  Max : Option ℚ
  percentile95 : Option ℚ
  Count : Nat
deriving DecidableEq, Repr

/-- `np.median` on a nonempty sorted list: the middle element for odd
length, the average of the two middle elements for even length. -/
def npMedian (sorted : List ℚ) : ℚ :=
  let n := sorted.length
  if n % 2 = 1 then sorted.getD (n / 2) 0
  else (sorted.getD (n / 2 - 1) 0 + sorted.getD (n / 2) 0) / 2

/-- `np.percentile(data, 95)` with numpy's default linear interpolation, on
a nonempty sorted list: the virtual rank is `95/100 * (n - 1)`; the result
interpolates between the order statistics bracketing that rank. -/
def npPercentile95 (sorted : List ℚ) : ℚ :=
  let n := sorted.length
  let rank : ℚ := 95 * ((n : ℚ) - 1) / 100
  let i : Nat := ⌊rank⌋.toNat
  let lower := sorted.getD i 0
  let upper := sorted.getD (i + 1) lower
  lower + (rank - (i : ℚ)) * (upper - lower)

/-- `calculate_statistics`: filter out the `None` entries (every retained
entry is numeric, so the `isinstance` test always passes on them), return
the all-null record with `Count = 0` when nothing remains, otherwise the
numpy statistics: mean `Σx/n`, population variance `Σ(x−mean)²/n` (whose
square root is `np.std`), and the order statistics (median, min, max, 95th
percentile) of the sorted data. -/
def calculate_statistics (data_list : List (Option ℚ)) : SummaryStats :=
  let valid_data := data_list.filterMap id
  if valid_data.isEmpty then
    { Mean := none, Median := none, StdDevSq := none, Min := none,
      Max := none, percentile95 := none, Count := valid_data.length }
  else
    let n : ℚ := valid_data.length
    let mean := valid_data.sum / n
    let varp := (valid_data.map (fun x => (x - mean) ^ 2)).sum / n
    let sorted := valid_data.insertionSort (· ≤ ·)
    { Mean := some mean, Median := some (npMedian sorted),
      StdDevSq := some varp, Min := sorted.head?,
      Max := sorted.getLast?, percentile95 := some (npPercentile95 sorted),
      Count := valid_data.length }

/-! ### Concrete inputs used by the closed theorems below. -/

/-- A trial in which the TLS setup succeeds, the CONNACK (reason code 0)
arrives at `t = 2` after the connect was issued at `t = 1`, the publish is
issued at `t = 3` with mid 7, and the only PUBACK delivered inside the wait
window is for the unrelated mid 8 (so the wait expires). -/
def envC2 : TrialEnv :=
  { tls := true, connAckRc := some 0, connectSentTime := 1, connAckTime := 2,
    publishSentTime := 3, publishMid := 7, pubAckMids := [8], pubAckTime := 4 }

/-- A trial state that already carries a recorded error. -/
def sC3 : MqttTestState :=
  { MqttTestState.init 1 "cfg" with error := some "Connect RC: 5" }

/-- A trial state after a successful connect handshake (connect issued at
`t = 1`, acknowledged at `t = 2`) in which the publish was never issued and
no error is recorded. -/
def sC6 : MqttTestState :=
  { iteration := 1, config_name := "cfg", connect_sent_time := 1,
    connect_ack_time := 2 }

/-- A per-trial outcome oracle in which every trial succeeds. -/
def trialAllOk : String → Nat → TrialResult :=
  fun _ i => { iteration := i, handshake := some 1, puback := some 1,
               total := some 1, error := none }

/-- A fully successful trial state: connect issued at `t = 1`, acknowledged
at `t = 2`, publish issued at `t = 3`, acknowledged at `t = 4`. -/
def sC10 : MqttTestState :=
  { iteration := 2, config_name := "cfg", connect_sent_time := 1,
    connect_ack_time := 2, publish_sent_time := 3, publish_ack_time := 4 }

/-! ## Theorems -/

/-- Two sorted permutations of one list coincide: sorting is a function of
the multiset of elements. -/
lemma insertionSort_eq_of_perm {l1 l2 : List ℚ} (h : l1.Perm l2) :
    l1.insertionSort (· ≤ ·) = l2.insertionSort (· ≤ ·) :=
  List.eq_of_perm_of_sorted
    ((List.perm_insertionSort _ l1).trans
      (h.trans (List.perm_insertionSort _ l2).symm))
    (List.sorted_insertionSort _ l1) (List.sorted_insertionSort _ l2)

/-- If the cancellation flag is unset at every checkpoint an iteration loop
reads, the loop completes, returning some result list and advancing the
checkpoint counter by the iteration count. -/
lemma runIterations_no_cancel (trial : String → Nat → TrialResult)
    (cancelled : Nat → Bool) (config_name : String) :
    ∀ (remaining i chk : Nat) (acc : List TrialResult),
      (∀ j, j < remaining → cancelled (chk + j) = false) →
      ∃ results,
        runIterations trial cancelled config_name remaining i chk acc =
          some (results, chk + remaining) := by
  intro remaining
  induction remaining with
  | zero => exact fun i chk acc _ => ⟨acc, rfl⟩
  | succ r ih =>
    intro i chk acc h
    have h0 : cancelled chk = false := h 0 (Nat.succ_pos r)
    have hrest : ∀ j, j < r → cancelled (chk + 1 + j) = false := by
      intro j hj
      have := h (j + 1) (by omega)
      rwa [show chk + (j + 1) = chk + 1 + j by omega] at this
    obtain ⟨res, hres⟩ := ih (i + 1) (chk + 1) (acc ++ [trial config_name i]) hrest
    refine ⟨res, ?_⟩
    unfold runIterations
    rw [h0]
    simp only [Bool.false_eq_true, if_false, hres]
    congr 2
    omega

/-- Claim C1: for every finalized trial, exactly one of {all three durations
non-null with no error, error non-null with all durations null} holds in the
result record, except that the handshake duration may be non-null alongside
an error describing a publish-phase failure (here literally `PUBACK
Incomplete/Timeout` or `Publish Phase Not Reached`), in which case the
publish-ack and total durations are null. -/
theorem C1_finalization_trichotomy (s : MqttTestState) :
    ((s.get_results_dict).handshake.isSome ∧ (s.get_results_dict).puback.isSome ∧
      (s.get_results_dict).total.isSome ∧ (s.get_results_dict).error = none) ∨
    ((s.get_results_dict).error.isSome ∧ (s.get_results_dict).handshake = none ∧
      (s.get_results_dict).puback = none ∧ (s.get_results_dict).total = none) ∨
    ((s.get_results_dict).handshake.isSome ∧ (s.get_results_dict).puback = none ∧
      (s.get_results_dict).total = none ∧
      ((s.get_results_dict).error = some "PUBACK Incomplete/Timeout" ∨
       (s.get_results_dict).error = some "Publish Phase Not Reached")) := by
  unfold MqttTestState.get_results_dict
  split_ifs <;> simp_all

/-- Claim C2 (code bug, evaluation at the failing input): in a trial whose
connect phase succeeds and whose publish-ack callback is invoked only with a
mismatched correlation id (`envC2`), the runner records `PUBACK timeout` via
`record_error`, and `get_results_dict` — whose leading `if self.error`
branch nulls every duration whenever an error was recorded — therefore
returns a null handshake duration, although the handshake completed and the
claim (with the source's own comment `Allow calculation even if publish
failed, handshake might be valid`) promises a populated one. -/
theorem C2_mismatched_mid_eval :
    (run_mqtt_test 1 "cfg" envC2).get_results_dict =
      { iteration := 1, handshake := none, puback := none, total := none,
        error := some "PUBACK timeout" } := by
  decide

/-- Claim C3 counterexample: a state whose error field is already non-null
(`Connect RC: 5`) does not keep it across `record_error`; the call replaces
it with the new message. -/
theorem C3_record_error_overwrites_cex :
    sC3.error = some "Connect RC: 5" ∧
    (sC3.record_error "PUBACK timeout").error ≠ some "Connect RC: 5" := by
  decide

/-- Claim C3 (amended): `record_error` unconditionally stores the new
message into the error field — overwriting any previously recorded error —
and signals both gates; stickiness of the first error is enforced only at
the call sites, which test the error field before calling. -/
theorem C3_record_error_overwrite_amended (s : MqttTestState) (msg : String) :
    (s.record_error msg).error = some msg ∧
    (s.record_error msg).connect_event = true ∧
    (s.record_error msg).publish_event = true :=
  ⟨rfl, rfl, rfl⟩

/-- Claim C4 counterexample: the connect-rejected callback path
(CONNACK with reason code 5) terminates the trial with a non-null error
while the publish gate is never signaled, so the invariant `error non-null
implies both gates signaled` fails after this code path. -/
theorem C4_connect_rejected_gate_cex :
    ((run_mqtt_test 1 "cfg" { connAckRc := some 5, connectSentTime := 1 }).error).isSome ∧
    (run_mqtt_test 1 "cfg" { connAckRc := some 5, connectSentTime := 1 }).publish_event
      = false := by
  decide

/-- Claim C4 (amended): `record_error` itself signals both gates whenever it
runs (so `error non-null implies both gates signaled` holds after it), while
the connect-rejected callback stores the error directly and signals only the
connect gate — after that path only the connect gate is guaranteed signaled
(the runner then skips the publish phase and never waits on the publish
gate). -/
theorem C4_gate_signalling_amended :
    (∀ (s : MqttTestState) (msg : String),
      (s.record_error msg).error.isSome ∧
      (s.record_error msg).connect_event = true ∧
      (s.record_error msg).publish_event = true) ∧
    (∀ (reason_code : Nat) (t : ℚ) (s : MqttTestState),
      (on_connect reason_code t s).connect_event = true) := by
  constructor
  · exact fun s msg => ⟨rfl, rfl, rfl⟩
  · intro rc t s
    unfold on_connect
    split_ifs <;> rfl

/-- Claim C5 counterexample: a two-configuration batch with one iteration
each, where the cancellation flag becomes set at checkpoint 2 — i.e. after
configuration `A` has completed all of its trials, before configuration
`B`'s first trial — flushes nothing at all to the sink (the cancelled
branch never calls `export_results_to_excel`), so configuration `A`'s
completed results are NOT flushed; the second conjunct shows the same batch
without cancellation does flush `A`'s results. -/
theorem C5_cancelled_batch_cex :
    (runBatch trialAllOk (fun n => decide (2 ≤ n)) 1 ["A", "B"]).flushed = none ∧
    (runBatch trialAllOk (fun _ => false) 1 ["A", "B"]).flushed =
      some [("A", [trialAllOk "A" 1]), ("B", [trialAllOk "B" 1])] := by
  decide

/-- Claim C5 (amended): for every two-configuration batch whose cancellation
flag becomes set exactly after the first configuration's iterations have all
run (checkpoint `iterations + 1`), the batch stops before the second
configuration's first trial and flushes nothing to the sink: zero results
for the configuration in progress and none for the previously completed
configuration either (its collected results are discarded, not exported). -/
theorem C5_cancelled_batch_amended (a b : String) (iterations : Nat)
    (trial : String → Nat → TrialResult) :
    (runBatch trial (fun n => decide (iterations + 1 ≤ n)) iterations
      [a, b]).flushed = none := by
  unfold runBatch runConfigs
  obtain ⟨res, hres⟩ := runIterations_no_cancel trial
    (fun n => decide (iterations + 1 ≤ n)) a iterations 1 1 []
    (fun j hj => by simp; omega)
  simp only [show (decide (iterations + 1 ≤ 0)) = false by simp,
    Bool.false_eq_true, if_false, hres]
  unfold runConfigs
  simp [BatchOutcome.flushed, show iterations + 1 ≤ 1 + iterations by omega]

/-- Claim C6 counterexample: an unsolicited disconnect (reason code 7) on an
error-free trial that has NOT completed its publish phase
(`publish_ack_time = 0`) records no error, because it falls under the
source's second grace condition (connect acknowledged, publish never
issued, within 1 s of the connect-ack) — the claim says an
unexpected-disconnect error is recorded whenever the notification arrives
before completion. -/
theorem C6_pre_publish_grace_cex :
    sC6.publish_ack_time = 0 ∧ sC6.error = none ∧
    (on_disconnect 7 2 sC6).error = none := by
  refine ⟨rfl, rfl, ?_⟩
  norm_num [on_disconnect, sC6, MqttTestState.record_error]

/-- Claim C6 (amended): for every unsolicited (non-zero reason) disconnect
notification on a trial with no error recorded, the state is left unchanged
exactly when one of the two grace conditions holds — within the 1 s grace
window after a completed publish-ack, or, when the publish was never
issued, within the 1 s grace window after the connect-ack; in every other
case an unexpected-disconnect error is recorded. -/
theorem C6_disconnect_grace_amended (reason_code : Nat) (current_time : ℚ)
    (s : MqttTestState) (hrc : reason_code ≠ 0) (herr : s.error = none) :
    (((0 < s.publish_ack_time ∧ current_time - s.publish_ack_time < 1) ∨
      (0 < s.connect_ack_time ∧ s.publish_sent_time = 0 ∧
        current_time - s.connect_ack_time < 1)) →
      on_disconnect reason_code current_time s = s) ∧
    (¬((0 < s.publish_ack_time ∧ current_time - s.publish_ack_time < 1) ∨
      (0 < s.connect_ack_time ∧ s.publish_sent_time = 0 ∧
        current_time - s.connect_ack_time < 1)) →
      (on_disconnect reason_code current_time s).error =
        some ("Unexpected disconnect: " ++ toString reason_code)) := by
  unfold on_disconnect
  split_ifs <;> simp_all [MqttTestState.record_error]

/-- Witness for `C6_disconnect_grace_amended` at the concrete state `sC6`
and a disconnect with reason code 7 at `t = 2`. -/
theorem C6_disconnect_grace_amended_witness :
    (((0 < sC6.publish_ack_time ∧ (2:ℚ) - sC6.publish_ack_time < 1) ∨
      (0 < sC6.connect_ack_time ∧ sC6.publish_sent_time = 0 ∧
        (2:ℚ) - sC6.connect_ack_time < 1)) →
      on_disconnect 7 2 sC6 = sC6) ∧
    (¬((0 < sC6.publish_ack_time ∧ (2:ℚ) - sC6.publish_ack_time < 1) ∨
      (0 < sC6.connect_ack_time ∧ sC6.publish_sent_time = 0 ∧
        (2:ℚ) - sC6.connect_ack_time < 1)) →
      (on_disconnect 7 2 sC6).error =
        some ("Unexpected disconnect: " ++ toString 7)) :=
  C6_disconnect_grace_amended 7 2 sC6 (by decide) rfl

/-- Claim C7: the statistics reduction is invariant under any permutation of
its input list — every field of the summary record agrees on permuted
inputs. -/
theorem C7_statistics_perm_invariant (l1 l2 : List (Option ℚ))
    (h : l1.Perm l2) :
    calculate_statistics l1 = calculate_statistics l2 := by
  have hv : (l1.filterMap id).Perm (l2.filterMap id) := h.filterMap id
  have hlen : (l1.filterMap id).length = (l2.filterMap id).length := hv.length_eq
  have hsum : (l1.filterMap id).sum = (l2.filterMap id).sum := hv.sum_eq
  have hsort : (l1.filterMap id).insertionSort (· ≤ ·) =
      (l2.filterMap id).insertionSort (· ≤ ·) := insertionSort_eq_of_perm hv
  have hempty : (l1.filterMap id).isEmpty = (l2.filterMap id).isEmpty := by
    cases h1 : l1.filterMap id <;> cases h2 : l2.filterMap id <;> simp_all
  have hmap : ∀ m : ℚ, ((l1.filterMap id).map (fun x => (x - m) ^ 2)).sum =
      ((l2.filterMap id).map (fun x => (x - m) ^ 2)).sum :=
    fun m => (hv.map _).sum_eq
  simp only [calculate_statistics]
  rw [hempty, hlen, hsum, hsort, hmap]

/-- Witness for `C7_statistics_perm_invariant` on a concrete permutation
with a null gap. -/
theorem C7_statistics_perm_invariant_witness :
    calculate_statistics [some 3, none, some 1] =
      calculate_statistics [some 1, some 3, none] :=
  C7_statistics_perm_invariant _ _ (by decide)

/-- Claim C8: the statistics reduction applied to `[10, 20, 30, 40]` returns
mean 25, median 25 (average of the two middle values of the even-length
sorted list), min 10, max 40, and count 4. -/
theorem C8_statistics_example :
    (calculate_statistics [some 10, some 20, some 30, some 40]).Mean = some 25 ∧
    (calculate_statistics [some 10, some 20, some 30, some 40]).Median = some 25 ∧
    (calculate_statistics [some 10, some 20, some 30, some 40]).Min = some 10 ∧
    (calculate_statistics [some 10, some 20, some 30, some 40]).Max = some 40 ∧
    (calculate_statistics [some 10, some 20, some 30, some 40]).Count = 4 := by
  norm_num [calculate_statistics, npMedian, List.insertionSort, List.orderedInsert,
    List.filterMap_cons, List.filterMap_nil, List.sum_cons, List.sum_nil]

/-- Claim C9: on an input that is empty or contains only null entries the
statistics reduction returns count 0 and every other statistic null. -/
theorem C9_statistics_all_null (l : List (Option ℚ))
    (h : ∀ x ∈ l, x = none) :
    calculate_statistics l =
      { Mean := none, Median := none, StdDevSq := none, Min := none,
        Max := none, percentile95 := none, Count := 0 } := by
  have hfm : l.filterMap id = [] := by
    rw [List.filterMap_eq_nil_iff]
    exact h
  unfold calculate_statistics
  simp [hfm]

/-- Witness for `C9_statistics_all_null` on an all-null three-element
list. -/
theorem C9_statistics_all_null_witness :
    calculate_statistics [none, none, none] =
      { Mean := none, Median := none, StdDevSq := none, Min := none,
        Max := none, percentile95 := none, Count := 0 } :=
  C9_statistics_all_null _ (by decide)

/-- Claim C10: whenever the finalized result record carries a non-null total
duration, that total equals `publish_ack_time - connect_sent_time`, i.e. the
handshake duration plus the publish-ack duration plus the gap between the
connect-ack and the publish issue (and hence excludes the disconnect
phase). -/
theorem C10_total_duration (s : MqttTestState) (t : ℚ)
    (h : (s.get_results_dict).total = some t) :
    t = s.publish_ack_time - s.connect_sent_time ∧
    ∃ hs p : ℚ, (s.get_results_dict).handshake = some hs ∧
      (s.get_results_dict).puback = some p ∧
      t = hs + p + (s.publish_sent_time - s.connect_ack_time) := by
  unfold MqttTestState.get_results_dict at h ⊢
  split_ifs at h ⊢ <;> simp_all
  linarith

/-- Witness for `C10_total_duration` at the fully successful trial state
`sC10` (total `4 - 1 = 3`, handshake 1, publish-ack 1, inter-phase gap
`3 - 2 = 1`). -/
theorem C10_total_duration_witness :
    (sC10.get_results_dict).total = some 3 ∧
    ((3:ℚ) = sC10.publish_ack_time - sC10.connect_sent_time ∧
    ∃ hs p : ℚ, (sC10.get_results_dict).handshake = some hs ∧
      (sC10.get_results_dict).puback = some p ∧
      (3:ℚ) = hs + p + (sC10.publish_sent_time - sC10.connect_ack_time)) :=
  ⟨by norm_num [MqttTestState.get_results_dict, sC10],
   C10_total_duration sC10 3
     (by norm_num [MqttTestState.get_results_dict, sC10])⟩
